import Mathlib

/-!
# Verification of the auto-suno-app core components

Shallow embedding of the queue manager (`src/core/queue_manager.py`), the batch
song creation engine (`src/core/batch_song_creator.py` together with the session
sizing in `src/ui/multiple_songs_panel.py`), the song creation history store
(`src/core/song_creation_history_manager.py`), the paginated download engine
(`src/core/download_manager.py` with `src/models/data_models.py`), and the rate
limit handling of the API client (`src/core/suno_api_client.py`).

Conventions of the embedding:
* Python's unbounded `int` is modelled as `Int` (as `Nat` where the source can
  only ever hold non-negative values, e.g. counters starting at 0 and only
  incremented).
* I/O (disk persistence, HTTP, the Selenium driver, `time.sleep`) is modelled
  by explicit state passing plus oracles for the outcomes of external calls;
  sleeps are recorded in ghost logs so that timing claims become claims about
  those logs.
* Functions that raise exceptions are modelled as returning the (possibly
  mutated) state together with `Option`/`Bool` encoding success; the Python
  code mutates `self` up to the point of the `raise`, and the embedding keeps
  exactly those mutations.
-/

/-! ## Prompts (src/utils/prompt_parser.py: SunoPrompt) -/

/-- A parsed prompt: `SunoPrompt(title, lyrics, style)`. -/
structure SunoPrompt where
  title : String
  lyrics : String
  style : String
deriving Repr, DecidableEq

/-! ## Queue manager (src/core/queue_manager.py, src/models/data_models.py) -/

/-- `QueueEntry` from `src/models/data_models.py` (fields relevant to the
queue-manager logic; `created_at` is wall-clock metadata and omitted). -/
structure QueueEntry where
  id : Nat
  account_name : String
  total_songs : Int
  songs_per_batch : Int
  prompts_range : Int × Int
  status : String
  completed_count : Int
deriving Repr, DecidableEq

/-- The in-memory state of `QueueManager`.  The Python `queues` dict maps
`uuid4()` ids to entries; ids are modelled by a fresh-`Nat` counter `next_id`
(uuids are unique, which is all the logic relies on), and the dict by the list
of its entries. -/
structure QMState where
  prompts : List SunoPrompt
  prompt_cursor : Int
  queues : List QueueEntry
  next_id : Nat
deriving Repr, DecidableEq

/-- The fresh state of a `QueueManager` with no persisted file
(`_default_state`). -/
def QMState.initial : QMState :=
  { prompts := [], prompt_cursor := 0, queues := [], next_id := 0 }

/-- `QueueManager.available_prompt_slots`: `len(self.prompts) - self.prompt_cursor`. -/
def QMState.available_prompt_slots (s : QMState) : Int :=
  (s.prompts.length : Int) - s.prompt_cursor

/-- `QueueManager._ensure_prompts`.  Returns the state after the call together
with `true` on normal return and `false` when `QueueValidationError` is raised.
Note the mutation: when the given list differs from the stored pool (and no
queues exist), the pool is replaced and the cursor reset to `0`. -/
def ensure_prompts (s : QMState) (prompts : List SunoPrompt) : QMState × Bool :=
  if prompts = [] then (s, false)
  else if s.prompts ≠ [] ∧ s.prompts ≠ prompts ∧ s.queues ≠ [] then (s, false)
  else if s.prompts = [] ∨ s.prompts ≠ prompts then
    ({ s with prompts := prompts, prompt_cursor := 0 }, true)
  else (s, true)

/-- `QueueManager.add_queue_entry`.  Returns the state after the call and
`some entry` on success, `none` when `QueueValidationError` is raised.  The
validations run in source order; a raise after `_ensure_prompts` keeps the
mutations `_ensure_prompts` made. -/
def add_queue_entry (s : QMState) (account_name : String)
    (total_songs songs_per_batch : Int) (prompts : List SunoPrompt) :
    QMState × Option QueueEntry :=
  let (s1, ok) := ensure_prompts s prompts
  if ¬ok then (s1, none)
  else if total_songs ≤ 0 ∨ songs_per_batch ≤ 0 then (s1, none)
  else if songs_per_batch > total_songs then (s1, none)
  else if s1.prompt_cursor + total_songs > (s1.prompts.length : Int) then (s1, none)
  else
    let entry : QueueEntry :=
      { id := s1.next_id
        account_name := account_name
        total_songs := total_songs
        songs_per_batch := songs_per_batch
        prompts_range := (s1.prompt_cursor, s1.prompt_cursor + total_songs)
        status := "pending"
        completed_count := 0 }
    ({ s1 with
        prompt_cursor := s1.prompt_cursor + total_songs
        queues := s1.queues ++ [entry]
        next_id := s1.next_id + 1 }, some entry)

/-- `QueueManager.remove_queue_entry`. -/
def remove_queue_entry (s : QMState) (queue_id : Nat) : QMState × Bool :=
  if s.queues.any (fun e => e.id = queue_id) then
    ({ s with queues := s.queues.filter (fun e => e.id ≠ queue_id) }, true)
  else (s, false)

/-- `QueueManager.update_queue_progress`.  `completed_count` is clamped to
`total_songs`; the status is only written when the argument is a truthy
(non-empty) string, matching `if status:`. -/
def update_queue_progress (s : QMState) (queue_id : Nat)
    (completed_count : Option Int) (status : Option String) : QMState × Bool :=
  if s.queues.any (fun e => e.id = queue_id) then
    ({ s with queues := s.queues.map (fun e =>
        if e.id = queue_id then
          let e1 := match completed_count with
            | none => e
            | some c => { e with completed_count := min c e.total_songs }
          match status with
          | none => e1
          | some st => if st = "" then e1 else { e1 with status := st }
        else e) }, true)
  else (s, false)

/-- `QueueManager.validate_total_prompts` (read-only). -/
def validate_total_prompts (s : QMState) (requested_total : Int) : Bool :=
  requested_total ≤ s.available_prompt_slots

/-- `QueueManager.clear`. -/
def QMState.clear (s : QMState) : QMState :=
  { s with prompts := [], prompt_cursor := 0, queues := [] }

/-- One mutating/query call on the queue manager, for stating invariants over
operation sequences. -/
inductive QMOp where
  | add (account_name : String) (total_songs songs_per_batch : Int)
      (prompts : List SunoPrompt)
  | remove (queue_id : Nat)
  | update (queue_id : Nat) (completed_count : Option Int) (status : Option String)
  | validate (requested_total : Int)
deriving Repr, DecidableEq

/-- State transition of one queue-manager operation (`validate_total_prompts`
is read-only). -/
def QMOp.apply (s : QMState) : QMOp → QMState
  | .add a t b p => (add_queue_entry s a t b p).1
  | .remove qid => (remove_queue_entry s qid).1
  | .update qid c st => (update_queue_progress s qid c st).1
  | .validate _ => s

/-! ## Download history and paginated download engine
(src/models/data_models.py: DownloadHistory; src/core/download_manager.py) -/

/-- `DownloadHistory` (per account): the dedup set and its cached size.
`last_download`, `current_page`, `last_profile` are not consulted by
`batch_download_paginated` and are omitted. -/
structure DownloadHistory where
  downloaded_ids : List String
  total_downloaded : Nat
deriving Repr, DecidableEq

/-- `DownloadHistory.is_downloaded`: `clip_id in self.downloaded_ids`. -/
def DownloadHistory.is_downloaded (h : DownloadHistory) (clip_id : String) : Bool :=
  decide (clip_id ∈ h.downloaded_ids)

/-- `DownloadHistory.add_download`: appends the id when absent and refreshes
`total_downloaded`. -/
def DownloadHistory.add_download (h : DownloadHistory) (clip_id : String) :
    DownloadHistory :=
  if clip_id ∈ h.downloaded_ids then h
  else
    { downloaded_ids := h.downloaded_ids ++ [clip_id]
      total_downloaded := (h.downloaded_ids ++ [clip_id]).length }

/-- The statistics dictionary of `batch_download_paginated`. -/
structure DlStats where
  success : Nat
  failed : Nat
  skipped : Nat
  total_pages : Nat
deriving Repr, DecidableEq

/-- Environment oracle for the download engine: the outcome `download_clip`
would report for a given clip id (network + disk, external to the model). -/
structure DlEnv where
  downloadOk : String → Bool

/-- Running state of one `batch_download_paginated` call: the account's
history, the stats, and a ghost log of the clip ids for which `download_clip`
was actually invoked (so 'not re-downloaded' is expressible). -/
structure DlRun where
  history : DownloadHistory
  stats : DlStats
  attempted : List String
deriving Repr

/-- The `max_clips` guard: `(stats['success'] + stats['skipped']) >= max_clips`. -/
def reachedMaxClips (max_clips : Option Nat) (st : DlStats) : Bool :=
  match max_clips with
  | none => false
  | some m => st.success + st.skipped ≥ m

/-- The per-clip body of the page loop in `batch_download_paginated`:
skip if already downloaded, otherwise attempt the download; a success adds the
id to the dedup set (and persists), a failure only counts. -/
def processClip (env : DlEnv) (st : DlRun) (clip_id : String) : DlRun :=
  if st.history.is_downloaded clip_id then
    { st with stats := { st.stats with skipped := st.stats.skipped + 1 } }
  else if env.downloadOk clip_id then
    { st with
        history := st.history.add_download clip_id
        stats := { st.stats with success := st.stats.success + 1 }
        attempted := st.attempted ++ [clip_id] }
  else
    { st with
        stats := { st.stats with failed := st.stats.failed + 1 }
        attempted := st.attempted ++ [clip_id] }

/-- The inner `for idx, clip in enumerate(clips, 1)` loop, with the
`max_clips` check before each clip. -/
def processPage (env : DlEnv) (max_clips : Option Nat) (st : DlRun) :
    List String → DlRun
  | [] => st
  | c :: rest =>
    if reachedMaxClips max_clips st.stats then st
    else processPage env max_clips (processClip env st c) rest

/-- The outer `while True` page loop of `batch_download_paginated`, run
against a mocked paginated source given as the list of its remaining pages
(each page the list of its clip ids; `has_more` is 'further pages remain').
Page-fetch exceptions do not occur against the mock and are not modelled. -/
def runPages (env : DlEnv) (max_pages max_clips : Option Nat) :
    List (List String) → Nat → DlRun → DlRun
  | [], _, st => st
  | page :: rest, pages_processed, st =>
    if (match max_pages with
        | none => false
        | some m => pages_processed ≥ m) then st
    else if reachedMaxClips max_clips st.stats then st
    else if page = [] then st
    else
      let st1 := { st with
        stats := { st.stats with total_pages := st.stats.total_pages + 1 } }
      let st2 := processPage env max_clips st1 page
      if rest = [] then st2
      else runPages env max_pages max_clips rest (pages_processed + 1) st2

/-- `DownloadManager.batch_download_paginated` over the mocked source,
starting from the given account history with fresh stats. -/
def batch_download_paginated (env : DlEnv) (pages : List (List String))
    (history : DownloadHistory) (max_pages max_clips : Option Nat) : DlRun :=
  runPages env max_pages max_clips pages 0
    { history := history
      stats := { success := 0, failed := 0, skipped := 0, total_pages := 0 }
      attempted := [] }

/-! ## Batch song creation engine (src/core/batch_song_creator.py,
session sizing from src/ui/multiple_songs_panel.py) -/

/-- `_calculate_session_count` (multiple_songs_panel.py): tiered lookup on the
number of prompts. -/
def calculate_session_count (total_prompts : Nat) : Nat :=
  if total_prompts > 30 then 4
  else if total_prompts > 20 then 3
  else if total_prompts > 10 then 2
  else 1

/-- `_default_songs_per_session` (multiple_songs_panel.py):
`math.ceil(total_songs / sessions)` with
`sessions = _calculate_session_count(total_songs)`, in `Nat` as
`(n + d - 1) / d`. -/
def default_songs_per_session (total_songs : Nat) : Nat :=
  (total_songs + calculate_session_count total_songs - 1) /
    calculate_session_count total_songs

/-- Outcome of the auto-submit path for one tab, as observed from the
browser: the URL wait resolved to `url`, raised `TimeoutException`, or raised
some other exception with text `msg`. -/
inductive SubmitOutcome where
  | resolved (url : String)
  | timeout
  | error (msg : String)
deriving Repr, DecidableEq

/-- Oracle for one tab's browser interaction: whether `_fill_song_form`
returns `True`, and what `_submit_and_get_id` would do if invoked. -/
structure TabInteraction where
  fillOk : Bool
  submit : SubmitOutcome
deriving Repr, DecidableEq

/-- Python `str.split(sep)` for a one-character separator, on the character
list: splitting the empty text yields `[""]`, and every separator occurrence
opens a new (possibly empty) chunk. -/
def splitOnChar (sep : Char) : List Char → List (List Char)
  | [] => [[]]
  | c :: rest =>
    let r := splitOnChar sep rest
    if c = sep then [] :: r
    else
      match r with
      | [] => [[c]]
      | g :: gs => (c :: g) :: gs

/-- `_extract_song_id`: `url.rstrip("/").split("/")[-1]` (Python's `split`
always yields a non-empty list, so the `if parsed else ""` default never
fires; `getLastD` matches both).  Strings are handled as character lists so
the function evaluates by kernel reduction. -/
def extract_song_id (url : String) : String :=
  let stripped := ((url.toList.reverse.dropWhile (· = '/')).reverse)
  let parsed := splitOnChar '/' stripped
  String.mk (parsed.getLastD [])

/-- The status/error/id outcome the `_run_session` body computes for one
song (lines 158–192 of batch_song_creator.py). -/
structure SongOutcome where
  success : Bool
  status_label : String
  song_id : Option String
  error_message : Option String
deriving Repr, DecidableEq

/-- The per-song state machine of `_run_session`: fill, then (when enabled)
auto-submit with its three outcomes. -/
def processSong (auto_submit : Bool) (inter : TabInteraction) : SongOutcome :=
  if inter.fillOk then
    if auto_submit then
      match inter.submit with
      | .resolved url =>
        { success := true, status_label := "success"
          song_id := some (extract_song_id url), error_message := none }
      | .timeout =>
        { success := true, status_label := "pending"
          song_id := none, error_message := some "Đã gửi yêu cầu – chờ ID" }
      | .error msg =>
        { success := false, status_label := "failed"
          song_id := none, error_message := some msg }
    else
      { success := true, status_label := "pending"
        song_id := none, error_message := none }
  else
    { success := false, status_label := "failed"
      song_id := none, error_message := some "Fill form failed" }

/-- One element of the returned results list:
`{'title', 'success', 'pending', 'error'}`. -/
structure SongResult where
  title : String
  success : Bool
  pending : Bool
  error : Option String
deriving Repr, DecidableEq

/-- `SongCreationRecord` as written by `_record_history_entry`
(`created_at` omitted as wall-clock metadata). -/
structure SongCreationRecord where
  song_id : String
  title : String
  prompt_index : Nat
  account_name : String
  status : String
  error_message : Option String
deriving Repr, DecidableEq

/-- One invocation of the progress callback
`(message, percent, song_id, status_label, prompt_title)`; the free-text
message is omitted. -/
structure ProgressEvent where
  percent : Nat
  song_id : Option String
  status_label : String
  prompt_title : String
deriving Repr, DecidableEq

/-- `⌊log2 n⌋` (0 for `n ≤ 1`), with the first argument as structural fuel
(`n` halvings always suffice) so it evaluates by kernel reduction. -/
def natLog2Aux : Nat → Nat → Nat
  | 0, _ => 0
  | fuel + 1, n => if n ≤ 1 then 0 else natLog2Aux fuel (n / 2) + 1

/-- `⌊log2 n⌋` for `n ≥ 1`. -/
def natLog2 (n : Nat) : Nat := natLog2Aux n n

/-- Round the quotient `N / D` to the nearest integer, ties to the even
mantissa — the IEEE-754 default rounding. -/
def roundHalfEven (N D : Nat) : Nat :=
  let m := N / D
  let r := N % D
  if 2 * r < D then m
  else if D < 2 * r then m + 1
  else if m % 2 = 0 then m else m + 1

/-- IEEE-754 binary64 division `a / b` for `a, b ≥ 1`, as an exact
mantissa/exponent pair `(m, e)` with value `m · 2^e`: the quotient is scaled
so its leading bit sits at position 52 and the 53-bit significand is the
half-even rounding of the scaled integer quotient.  The exponent is
unbounded, so this agrees with binary64 on the whole normal range — which
the program's values (quotients `k/total` of counts of an in-memory list,
scaled by 100) can never leave. -/
def roundDiv53 (a b : Nat) : Nat × Int :=
  let la := natLog2 a
  let lb := natLog2 b
  let exp : Int :=
    if b * 2 ^ la ≤ a * 2 ^ lb then (la : Int) - lb else (la : Int) - lb - 1
  let e : Int := exp - 52
  let N := a * 2 ^ (-e).toNat
  let D := b * 2 ^ e.toNat
  (roundHalfEven N D, e)

/-- IEEE-754 binary64 multiplication of the double `(m, e)` by the exact
constant 100: the widened mantissa is rounded back to 53 bits, half to
even. -/
def mul100round (me : Nat × Int) : Nat × Int :=
  let M := me.1 * 100
  let s := natLog2 M - 52
  (roundHalfEven M (2 ^ s), me.2 + s)

/-- Python `int()` of the non-negative double `(m, e)`: truncation towards
zero, i.e. the floor of `m · 2^e`. -/
def floorPos (me : Nat × Int) : Nat :=
  if 0 ≤ me.2 then me.1 * 2 ^ me.2.toNat else me.1 / 2 ^ (-me.2).toNat

/-- The percent the program reports for `k` songs completed out of `total`:
`min(100, int((k / total) * 100))` with `/` and `*` as correctly rounded
binary64 operations.  The `k = 0 ∨ total = 0` guard is for totality only —
the program always has `1 ≤ k ≤ total` (Python would raise on `total = 0`).
Validated against CPython on every `k ≤ total` for `total ≤ 40` and
`total ∈ {97, 100, 123, 997, 1000}` plus random large inputs, including the
inputs where the doubles land below the exact quotient
(`int((29/100)*100) = 28`). -/
def pyPercent (k total : Nat) : Nat :=
  if k = 0 ∨ total = 0 then 0
  else min 100 (floorPos (mul100round (roundDiv53 k total)))

/-- The progress percent of `_run_session`:
`min(100, int(((completed_before_session + prompt_index + 1) / total) * 100))`
in the program's double arithmetic. -/
def progressPercent (completed_before prompt_index total : Nat) : Nat :=
  pyPercent (completed_before + prompt_index + 1) total

/-- The tab loop of `_run_session`: one result, one history record and one
progress event per prompt, in index order.  The oracle `env` is indexed by the
song's absolute position `completed_before + prompt_index` in the batch. -/
def run_session (env : Nat → TabInteraction) (auto_submit : Bool)
    (account_name : String) (completed_before total : Nat) :
    List SunoPrompt → Nat →
    List SongResult × List SongCreationRecord × List ProgressEvent
  | [], _ => ([], [], [])
  | p :: rest, prompt_index =>
    let o := processSong auto_submit (env (completed_before + prompt_index))
    let res : SongResult :=
      { title := p.title, success := o.success
        pending := o.status_label = "pending"
        error := if o.success then none else o.error_message }
    let rec_ : SongCreationRecord :=
      { song_id := o.song_id.getD "", title := p.title
        prompt_index := completed_before + prompt_index + 1
        account_name := account_name, status := o.status_label
        error_message := o.error_message }
    let ev : ProgressEvent :=
      { percent := progressPercent completed_before prompt_index total
        song_id := o.song_id, status_label := o.status_label
        prompt_title := p.title }
    let tail :=
      run_session env auto_submit account_name completed_before total rest
        (prompt_index + 1)
    (res :: tail.1, rec_ :: tail.2.1, ev :: tail.2.2)

/-- The session slices of `create_songs_batch`: session `k` gets
`prompts[k*size : k*size + size]`, for `k < count`; written recursively
(slice, then recurse on the remainder), which yields the same slices. -/
def sessionSlices (size : Nat) : Nat → List SunoPrompt → List (List SunoPrompt)
  | 0, _ => []
  | count + 1, l => l.take size :: sessionSlices size count (l.drop size)

/-- The session loop of `create_songs_batch`: sessions run strictly in order,
`completed_songs` advancing by each session's length. -/
def runSessions (env : Nat → TabInteraction) (auto_submit : Bool)
    (account_name : String) (total : Nat) :
    List (List SunoPrompt) → Nat →
    List SongResult × List SongCreationRecord × List ProgressEvent
  | [], _ => ([], [], [])
  | s :: rest, completed =>
    let head := run_session env auto_submit account_name completed total s 0
    let tail :=
      runSessions env auto_submit account_name total rest (completed + s.length)
    (head.1 ++ tail.1, head.2.1 ++ tail.2.1, head.2.2 ++ tail.2.2)

/-- Everything observable from one `create_songs_batch` call: the returned
results, the history records written, every progress-callback invocation
(including the final completion event), and whether the browser driver was
initialized. -/
structure BatchRun where
  results : List SongResult
  records : List SongCreationRecord
  progress : List ProgressEvent
  driver_initialized : Bool
deriving Repr, DecidableEq

/-- The final `progress_callback("✅ Hoàn thành!", 100, None, "complete",
"Batch finished")`. -/
def batchFinishedEvent : ProgressEvent :=
  { percent := 100, song_id := none, status_label := "complete"
    prompt_title := "Batch finished" }

/-- `BatchSongCreator.create_songs_batch`: the empty-prompts early return,
otherwise session sizing, the session loop, and the final completion event.
Session-level exceptions (line 102) can only arise from the external driver
and do not occur under the tab-interaction oracle. -/
def create_songs_batch (env : Nat → TabInteraction)
    (prompts : List SunoPrompt) (songs_per_session : Nat) (auto_submit : Bool)
    (account_name : String) : BatchRun :=
  if prompts = [] then
    { results := [], records := [], progress := [], driver_initialized := false }
  else
    let session_size := max 1 songs_per_session
    let total_songs := prompts.length
    let session_count := (total_songs + session_size - 1) / session_size
    let slices := sessionSlices session_size session_count prompts
    let out := runSessions env auto_submit account_name total_songs slices 0
    { results := out.1, records := out.2.1
      progress := out.2.2 ++ [batchFinishedEvent]
      driver_initialized := true }

/-! ## API client rate limiting (src/core/suno_api_client.py) -/

/-- `SunoApiClient._handle_rate_limit`, acting on the mutable
`_rate_limit_wait` (initially 10): given the response status and the current
wait, returns `(should_retry, sleep_performed, new_wait)`.  A 429 sleeps for
the current wait and then bumps it by 5 capped at 60; a 200 resets it to 10;
anything else leaves it alone. -/
def handle_rate_limit (status wait : Nat) : Bool × Option Nat × Nat :=
  if status = 429 then (true, some wait, min (wait + 5) 60)
  else if status = 200 then (false, none, 10)
  else (false, none, wait)

/-- `SunoApiClient._make_request` against an oracle stream of response
statuses (one entry per `requests.request` call).  Returns
`(request_succeeded, sleeps_performed, new_wait, remaining_stream)`.
The first response goes through `_handle_rate_limit`; on a 429 the request is
retried exactly once, and the retry's response goes only through
`raise_for_status` (success iff status < 400), not through the handler. -/
def make_request (wait : Nat) : List Nat → Bool × List Nat × Nat × List Nat
  | [] => (false, [], wait, [])
  | r :: rest =>
    let (retry, slp, w') := handle_rate_limit r wait
    let sleeps := match slp with
      | none => []
      | some d => [d]
    if retry then
      match rest with
      | [] => (false, sleeps, w', [])
      | r2 :: rest2 => (decide (r2 < 400), sleeps, w', rest2)
    else (decide (r < 400), sleeps, w', rest)

/-- A sequence of `_make_request` calls on one client, issued until the
response stream is exhausted; collects every sleep performed and the final
`_rate_limit_wait`.  Structured by the same two-level case split as
`make_request` (see `run_requests_cons`). -/
def run_requests (wait : Nat) : List Nat → List Nat × Nat
  | [] => ([], wait)
  | r :: rest =>
    let (retry, slp, w') := handle_rate_limit r wait
    let sleeps := match slp with
      | none => []
      | some d => [d]
    if retry then
      match rest with
      | [] => (sleeps, w')
      | _ :: rest2 =>
        let (ss, wf) := run_requests w' rest2
        (sleeps ++ ss, wf)
    else
      let (ss, wf) := run_requests w' rest
      (sleeps ++ ss, wf)

/-! ## Song creation history store (src/core/song_creation_history_manager.py) -/

/-- `SongCreationHistoryManager.add_creation_record`:
`records.insert(0, record)` — newest first. -/
def add_creation_record (records : List SongCreationRecord)
    (record : SongCreationRecord) : List SongCreationRecord :=
  record :: records

/-- The match predicate of `search_records`: the lowered keyword is a
substring (`in`) of the lowered title, song id, or status. -/
def matchesKeyword (keyword : String) (rec_ : SongCreationRecord) : Prop :=
  keyword.toLower.toList <:+: rec_.title.toLower.toList ∨
  keyword.toLower.toList <:+: rec_.song_id.toLower.toList ∨
  keyword.toLower.toList <:+: rec_.status.toLower.toList

instance (keyword : String) (rec_ : SongCreationRecord) :
    Decidable (matchesKeyword keyword rec_) := by
  unfold matchesKeyword; infer_instance

/-- `SongCreationHistoryManager.search_records`: empty keyword returns all
records, otherwise the linear case-insensitive scan. -/
def search_records (keyword : String) (records : List SongCreationRecord) :
    List SongCreationRecord :=
  if keyword = "" then records
  else records.filter (fun r => decide (matchesKeyword keyword r))

/-- Rounding a fraction `num / den` to the nearest integer, halves away from
zero — the natural reading of the spec's `round`; Python's `round` (which
rounds halves to even) agrees with it at every non-tie, in particular at
`100 * 2 / 3`. -/
def roundNearest (num den : Nat) : Nat :=
  (2 * num + den) / (2 * den)

/-- The two-prompt pool used in the queue-manager counterexamples. -/
def cexPool : List SunoPrompt := [⟨"t1", "l", "s"⟩, ⟨"t2", "l", "s"⟩]

/-- A different one-prompt pool used in the queue-manager counterexamples. -/
def cexPool2 : List SunoPrompt := [⟨"u", "l", "s"⟩]

/-- The reachable queue-manager state with pool `cexPool`, cursor `2` and no
entries: add a two-song entry (which gets id 0) and remove it again. -/
def cexState : QMState :=
  (remove_queue_entry (add_queue_entry QMState.initial "a" 2 1 cexPool).1 0).1

/-- A three-prompt batch used in concrete engine runs. -/
def cexPrompts3 : List SunoPrompt :=
  [⟨"a", "l", "s"⟩, ⟨"b", "l", "s"⟩, ⟨"c", "l", "s"⟩]

/-- A tab-interaction oracle where every fill and every submit succeeds. -/
def cexEnvOk : Nat → TabInteraction :=
  fun _ => ⟨true, .resolved "https://suno.com/song/x1"⟩

/-- Half-open integer intervals that do not overlap. -/
def RangesDisjoint (r1 r2 : Int × Int) : Prop :=
  r1.2 ≤ r2.1 ∨ r2.2 ≤ r1.1

/-- A sequence of `add_queue_entry` calls against the single prompt pool `P`,
starting from a fresh manager; each call is `(account_name, total_songs,
songs_per_batch)`. -/
def runAdds (P : List SunoPrompt) (calls : List (String × Int × Int)) :
    QMState :=
  calls.foldl (fun s c => (add_queue_entry s c.1 c.2.1 c.2.2 P).1)
    QMState.initial

/-- The queue-manager state invariant maintained by `add_queue_entry` against
one pool `P`: the pool is `P` (or still unset, with nothing allocated), the
cursor stays within the pool, every entry's range is inside `[0, cursor)`,
and the entries' ranges are ordered end-before-start. -/
def QMInv (P : List SunoPrompt) (s : QMState) : Prop :=
  (s.prompts = P ∨ s.prompts = []) ∧
  (s.prompts = [] → s.queues = [] ∧ s.prompt_cursor = 0) ∧
  0 ≤ s.prompt_cursor ∧
  s.prompt_cursor ≤ (s.prompts.length : Int) ∧
  (∀ e ∈ s.queues,
    0 ≤ e.prompts_range.1 ∧
    e.prompts_range.1 ≤ e.prompts_range.2 ∧
    e.prompts_range.2 ≤ s.prompt_cursor) ∧
  s.queues.Pairwise (fun a b => a.prompts_range.2 ≤ b.prompts_range.1)

/-! ## Theorems -/

/-- Helper: `_ensure_prompts` called with the already-stored (non-empty)
prompt list succeeds without touching the state. -/
theorem ensure_prompts_self_of_ne (s : QMState) (h : s.prompts ≠ []) :
    ensure_prompts s s.prompts = (s, true) := by
  unfold ensure_prompts
  simp [h]

/-- Helper: `_ensure_prompts` called with the stored prompt list when that
list is empty raises (the given list is empty), leaving the state unchanged. -/
theorem ensure_prompts_self_of_nil (s : QMState) (h : s.prompts = []) :
    ensure_prompts s s.prompts = (s, false) := by
  unfold ensure_prompts
  simp [h]

/-- C10: `create_songs_batch` on an empty prompt list returns an empty
results list immediately — the driver is never initialized, no history record
is written, and the progress callback is never invoked, not even the final
completion event. -/
theorem empty_batch_noop :
    ∀ (env : Nat → TabInteraction) (spb : Nat) (auto : Bool) (acct : String),
      create_songs_batch env [] spb auto acct =
        { results := [], records := [], progress := []
          driver_initialized := false } := by
  intro env spb auto acct
  rfl

/-- C9: `search_records` returns exactly the stored records whose lowered
title, song id, or status contains the lowered keyword as a substring (OR
semantics); the empty keyword matches every record. -/
theorem search_records_spec :
    ∀ (kw : String) (recs : List SongCreationRecord) (r : SongCreationRecord),
      r ∈ search_records kw recs ↔
        r ∈ recs ∧ (kw = "" ∨ matchesKeyword kw r) := by
  intro kw recs r
  unfold search_records
  by_cases h : kw = ""
  · simp [h]
  · simp [h, List.mem_filter]

/-- C2, counterexample: on a fill success with auto-submit enabled and the
URL wait timing out, the recorded error message is the Vietnamese
`"Đã gửi yêu cầu – chờ ID"`, not the claimed English
`"request sent – waiting for ID"`. -/
theorem pending_timeout_message_counterexample :
    processSong true ⟨true, .timeout⟩ =
      { success := true, status_label := "pending", song_id := none
        error_message := some "Đã gửi yêu cầu – chờ ID" } ∧
    "Đã gửi yêu cầu – chờ ID" ≠ "request sent – waiting for ID" := by
  exact ⟨rfl, by decide⟩

/-- C2, amended: the per-song state machine as the code implements it — fill
failure yields `failed` with `"Fill form failed"`; fill success with
auto-submit disabled yields `pending` with no error; a resolved URL yields
`success` with the song id taken from the URL's last path segment (a URL
ending in `/song/abc-123` yields `"abc-123"`); a wait timeout yields
`pending` with error message `"Đã gửi yêu cầu – chờ ID"`; any other
auto-submit exception yields `failed` with the exception's text. -/
theorem song_state_machine_amended :
    (∀ (sub : SubmitOutcome) (auto : Bool),
      processSong auto ⟨false, sub⟩ =
        { success := false, status_label := "failed", song_id := none
          error_message := some "Fill form failed" }) ∧
    (∀ (sub : SubmitOutcome),
      processSong false ⟨true, sub⟩ =
        { success := true, status_label := "pending", song_id := none
          error_message := none }) ∧
    (∀ (url : String),
      processSong true ⟨true, .resolved url⟩ =
        { success := true, status_label := "success"
          song_id := some (extract_song_id url), error_message := none }) ∧
    extract_song_id "https://suno.com/song/abc-123" = "abc-123" ∧
    (processSong true ⟨true, .timeout⟩ =
      { success := true, status_label := "pending", song_id := none
        error_message := some "Đã gửi yêu cầu – chờ ID" }) ∧
    (∀ (msg : String),
      processSong true ⟨true, .error msg⟩ =
        { success := false, status_label := "failed", song_id := none
          error_message := some msg }) := by
  refine ⟨fun sub auto => ?_, fun sub => rfl, fun url => rfl, by decide,
    rfl, fun msg => rfl⟩
  cases auto <;> rfl

/-- C7, counterexample: feeding the client the raw status stream
`429, 429, 429, 200` produces only two sleeps (10 s then 15 s), because the
second 429 arrives on the inline retry, which bypasses `_handle_rate_limit`;
and the final wait is 20 s, not reset to the base 10 s, because the 200 also
arrives on a retry. -/
theorem rate_limit_stream_counterexample :
    run_requests 10 [429, 429, 429, 200] = ([10, 15], 20) ∧
    ([10, 15] : List Nat).length ≠ 3 ∧
    (20 : Nat) ≠ 10 := by
  refine ⟨rfl, by decide, by decide⟩

/-- C7, amended: a 429 arriving as a request's *first* response causes one
sleep of the current wait, after which the wait is bumped by 5 s capped at
60 s (never below the previous wait, up to the cap) and the request is
retried exactly once; a 200 arriving as a first response resets the wait to
the base 10 s; the retry's own response is not fed back into
`_handle_rate_limit`, so after a 429 the new wait is `min (w+5) 60` no matter
what the retry returns.  Hence three requests whose first responses are 429
(with failing retries) followed by a request answered 200 sleep for
10, 15, 20 — non-decreasing — and then reset the wait to 10. -/
theorem rate_limit_backoff_amended :
    (∀ w : Nat, handle_rate_limit 429 w = (true, some w, min (w + 5) 60)) ∧
    (∀ w : Nat, handle_rate_limit 200 w = (false, none, 10)) ∧
    (∀ w : Nat, min w 60 ≤ (handle_rate_limit 429 w).2.2) ∧
    (∀ (w r2 : Nat) (rest : List Nat),
      (make_request w (429 :: r2 :: rest)).2.2.2 = rest) ∧
    (∀ (w r2 : Nat) (rest : List Nat),
      (make_request w (429 :: r2 :: rest)).2.1 = [w] ∧
      (make_request w (429 :: r2 :: rest)).2.2.1 = min (w + 5) 60) ∧
    (∀ (w : Nat) (rest : List Nat),
      (make_request w (200 :: rest)).2.1 = [] ∧
      (make_request w (200 :: rest)).2.2.1 = 10) ∧
    run_requests 10 [429, 500, 429, 500, 429, 500, 200] = ([10, 15, 20], 10) ∧
    (10 : Nat) ≤ 15 ∧ (15 : Nat) ≤ 20 := by
  refine ⟨fun w => rfl, fun w => rfl, fun w => ?_,
    fun w r2 rest => rfl, fun w r2 rest => ⟨rfl, rfl⟩,
    fun w rest => ⟨rfl, rfl⟩, rfl, by decide, by decide⟩
  simp [handle_rate_limit]

/-- C3, counterexample: in the state with pool `cexPool` (two prompts),
cursor 2 and no live entries, `add_queue_entry` asking for 1 song — more than
the 0 available slots — *succeeds*, because passing a different prompt list
while no entries exist replaces the pool and resets the cursor to 0 before
the capacity check. -/
theorem capacity_enforcement_counterexample :
    cexState.available_prompt_slots = 0 ∧
    (add_queue_entry cexState "a" 1 1 cexPool2).2.isSome = true ∧
    (add_queue_entry cexState "a" 1 1 cexPool2).1.prompt_cursor ≠
      cexState.prompt_cursor := by
  refine ⟨by decide, by decide, by decide⟩

/-- C3, amended: when `add_queue_entry` is called with the prompt list the
manager already stores, a request for more songs than the available prompt
slots fails with `QueueValidationError` and leaves the whole state — cursor
and entries included — unchanged. -/
theorem capacity_enforcement_same_pool :
    ∀ (s : QMState) (acct : String) (total spb : Int)
      (prompts : List SunoPrompt),
      prompts = s.prompts →
      s.prompt_cursor + total > (s.prompts.length : Int) →
      add_queue_entry s acct total spb prompts = (s, none) := by
  intro s acct total spb prompts hp hcap
  subst hp
  unfold add_queue_entry ensure_prompts
  by_cases hnil : s.prompts = []
  · simp [hnil]
  · simp only [hnil, if_neg]
    have h1 : ¬(s.prompts ≠ [] ∧ s.prompts ≠ s.prompts ∧ s.queues ≠ []) := by
      simp
    have h2 : ¬(s.prompts = [] ∨ s.prompts ≠ s.prompts) := by
      simp [hnil]
    simp only [hnil, h1, h2, if_neg, if_false, ite_false]
    by_cases hpos : total ≤ 0 ∨ spb ≤ 0
    · simp [hpos]
    · simp only [hpos, ite_false, if_false]
      by_cases hbt : spb > total
      · simp [hbt]
      · simp [hbt, hcap]

/-- Witness for `capacity_enforcement_same_pool` at a concrete state: pool of
one prompt, cursor 0, request for 5 songs. -/
theorem capacity_enforcement_same_pool_witness :
    (0 : Int) + 5 > ((cexPool2.length : Nat) : Int) ∧
    add_queue_entry
        { prompts := cexPool2, prompt_cursor := 0, queues := [], next_id := 0 }
        "a" 5 1 cexPool2 =
      ({ prompts := cexPool2, prompt_cursor := 0, queues := [], next_id := 0 },
        none) :=
  ⟨by decide,
    capacity_enforcement_same_pool
      { prompts := cexPool2, prompt_cursor := 0, queues := [], next_id := 0 }
      "a" 5 1 cexPool2 rfl (by decide)⟩

/-- C5, counterexample: the cursor decreases without `clear()` — add a
two-song entry (cursor 2), remove it, then call `add_queue_entry` with a
different prompt list: the pool is replaced and the cursor is reset to 0,
then advanced to 1 by the new entry, so it drops from 2 to 1. -/
theorem cursor_decrease_counterexample :
    cexState.prompt_cursor = 2 ∧
    ((QMOp.add "a" 1 1 cexPool2).apply cexState).prompt_cursor = 1 ∧
    ((QMOp.add "a" 1 1 cexPool2).apply cexState).prompt_cursor <
      cexState.prompt_cursor := by
  refine ⟨by decide, by decide, by decide⟩

/-- C5, amended: across `remove_queue_entry`, `update_queue_progress` and
`validate_total_prompts` the prompt cursor never decreases, and the same
holds for `add_queue_entry` whenever it is called with the prompt list the
manager already stores; only an `add_queue_entry` that replaces the pool
(different prompts while no entries exist) can reset the cursor. -/
theorem cursor_monotone_amended :
    ∀ (s : QMState) (op : QMOp),
      (match op with
        | .add _ _ _ p => p = s.prompts
        | _ => True) →
      s.prompt_cursor ≤ (op.apply s).prompt_cursor := by
  intro s op hside
  cases op with
  | add a t b p =>
    have hp : p = s.prompts := hside
    subst hp
    show s.prompt_cursor ≤ (add_queue_entry s a t b s.prompts).1.prompt_cursor
    unfold add_queue_entry
    by_cases hnil : s.prompts = []
    · rw [ensure_prompts_self_of_nil s hnil]
      simp
    · rw [ensure_prompts_self_of_ne s hnil]
      by_cases hpos : t ≤ 0 ∨ b ≤ 0
      · simp [hpos]
      · by_cases hbt : b > t
        · simp [hpos, hbt]
        · by_cases hcap : s.prompt_cursor + t > (s.prompts.length : Int)
          · simp [hpos, hbt, hcap]
          · simp only [hpos, hbt, hcap, ite_false, if_false, Bool.not_true,
              not_false_eq_true]
            simp
            omega
  | remove qid =>
    show s.prompt_cursor ≤ (remove_queue_entry s qid).1.prompt_cursor
    unfold remove_queue_entry
    by_cases h : s.queues.any (fun e => e.id = qid)
    · simp [h]
    · simp [h]
  | update qid c st =>
    show s.prompt_cursor ≤ (update_queue_progress s qid c st).1.prompt_cursor
    unfold update_queue_progress
    by_cases h : s.queues.any (fun e => e.id = qid)
    · simp [h]
    · simp [h]
  | validate n => exact le_refl _

/-- Witness for `cursor_monotone_amended`: a concrete remove call on
`cexState` keeps the cursor at 2. -/
theorem cursor_monotone_amended_witness :
    cexState.prompt_cursor ≤ ((QMOp.remove 0).apply cexState).prompt_cursor :=
  cursor_monotone_amended cexState (QMOp.remove 0) trivial

example : extract_song_id "https://suno.com/song/abc-123" = "abc-123" := by decide

example :
    (create_songs_batch (fun _ => ⟨true, .resolved "https://suno.com/song/x1"⟩)
      [⟨"a", "l", "s"⟩, ⟨"b", "l", "s"⟩, ⟨"c", "l", "s"⟩] 3 true "acct"
      ).progress.map ProgressEvent.percent = [33, 66, 100, 100] := by decide

example :
    (batch_download_paginated ⟨fun _ => true⟩ [["a", "b"], ["c"]]
      ⟨[], 0⟩ none none).stats.success = 3 := by decide

example :
    (batch_download_paginated ⟨fun _ => true⟩ [["a", "b"], ["c"]]
      ⟨["a", "b", "c"], 3⟩ none none).stats.skipped = 3 := by decide

/-- Helper: every session slice has at most `size` prompts. -/
theorem sessionSlices_length_le (size : Nat) :
    ∀ (count : Nat) (l : List SunoPrompt),
      ∀ sl ∈ sessionSlices size count l, sl.length ≤ size := by
  intro count
  induction count with
  | zero =>
    intro l sl h
    simp [sessionSlices] at h
  | succ k ih =>
    intro l sl h
    simp only [sessionSlices, List.mem_cons] at h
    rcases h with h | h
    · subst h
      simp only [List.length_take]
      omega
    · exact ih _ _ h

/-- Helper: concatenating the session slices in order gives back the first
`size * count` prompts. -/
theorem sessionSlices_flatten (size : Nat) :
    ∀ (count : Nat) (l : List SunoPrompt),
      (sessionSlices size count l).flatten = l.take (size * count) := by
  intro count
  induction count with
  | zero =>
    intro l
    simp [sessionSlices]
  | succ k ih =>
    intro l
    simp only [sessionSlices, List.flatten_cons]
    rw [ih (l.drop size)]
    have h : size * (k + 1) = size + size * k := by ring
    rw [h, List.take_add]

/-- Helper: with the session count `create_songs_batch` computes, the slices
concatenate to the whole prompt list. -/
theorem sessionSlices_flatten_all (size : Nat) (l : List SunoPrompt)
    (hs : 0 < size) :
    (sessionSlices size ((l.length + size - 1) / size) l).flatten = l := by
  rw [sessionSlices_flatten]
  apply List.take_of_length_le
  rw [← Nat.ceilDiv_eq_add_pred_div]
  simpa using le_smul_ceilDiv hs

/-- Helper: the titles of a session's results are the session's prompt
titles, in order. -/
theorem run_session_titles (env : Nat → TabInteraction) (auto : Bool)
    (acct : String) (cb total : Nat) :
    ∀ (ps : List SunoPrompt) (i : Nat),
      ((run_session env auto acct cb total ps i).1).map SongResult.title =
        ps.map SunoPrompt.title := by
  intro ps
  induction ps with
  | nil => intro i; rfl
  | cons p rest ih =>
    intro i
    simp only [run_session, List.map_cons]
    rw [ih (i + 1)]

/-- Helper: the progress percents emitted by one session are those of the
consecutive absolute song counts, starting after `cb + i` already-handled
songs. -/
theorem run_session_percents (env : Nat → TabInteraction) (auto : Bool)
    (acct : String) (cb total : Nat) :
    ∀ (ps : List SunoPrompt) (i : Nat),
      ((run_session env auto acct cb total ps i).2.2).map ProgressEvent.percent =
        (List.range' (cb + i + 1) ps.length).map
          (fun a => pyPercent a total) := by
  intro ps
  induction ps with
  | nil => intro i; rfl
  | cons p rest ih =>
    intro i
    simp only [run_session, List.map_cons, List.length_cons]
    rw [List.range'_succ, List.map_cons, ih (i + 1)]
    congr 1

/-- Helper: the titles of the whole batch's results are the concatenated
sessions' prompt titles, in order. -/
theorem runSessions_titles (env : Nat → TabInteraction) (auto : Bool)
    (acct : String) (total : Nat) :
    ∀ (slices : List (List SunoPrompt)) (c : Nat),
      ((runSessions env auto acct total slices c).1).map SongResult.title =
        (slices.flatten).map SunoPrompt.title := by
  intro slices
  induction slices with
  | nil => intro c; rfl
  | cons s rest ih =>
    intro c
    simp only [runSessions, List.flatten_cons, List.map_append]
    rw [run_session_titles, ih (c + s.length)]

/-- Helper: the progress percents emitted by the whole session loop are those
of the consecutive absolute song counts `c + 1, c + 2, …`. -/
theorem runSessions_percents (env : Nat → TabInteraction) (auto : Bool)
    (acct : String) (total : Nat) :
    ∀ (slices : List (List SunoPrompt)) (c : Nat),
      ((runSessions env auto acct total slices c).2.2).map ProgressEvent.percent =
        (List.range' (c + 1) (slices.flatten).length).map
          (fun a => pyPercent a total) := by
  intro slices
  induction slices with
  | nil => intro c; rfl
  | cons s rest ih =>
    intro c
    simp only [runSessions, List.flatten_cons, List.map_append,
      List.length_append]
    rw [run_session_percents, ih (c + s.length), ← List.map_append]
    congr 1
    have h0 : c + 0 + 1 = c + 1 := by omega
    have h1 : c + s.length + 1 = c + 1 + 1 * s.length := by omega
    rw [h0, h1, List.range'_append]
    congr 1
    omega

/-- C6: for a non-empty batch of `N` prompts, the session count is the tiered
lookup on `N` (`<11 → 1`, `11–20 → 2`, `21–30 → 3`, `≥31 → 4`); the
per-session size `s` is exactly `⌈N / session_count⌉` (characterized by
`N ≤ c·s` and `c·(s−1) < N`); the engine's session slices are then chunks of
at most `s` prompts whose in-order concatenation is the whole prompt list,
and the batch processes them strictly sequentially in index order — the
results' titles come back in exactly the input prompt order. -/
theorem session_partitioning (prompts : List SunoPrompt)
    (hne : prompts ≠ []) :
    (prompts.length ≤ 10 → calculate_session_count prompts.length = 1) ∧
    (11 ≤ prompts.length → prompts.length ≤ 20 →
      calculate_session_count prompts.length = 2) ∧
    (21 ≤ prompts.length → prompts.length ≤ 30 →
      calculate_session_count prompts.length = 3) ∧
    (31 ≤ prompts.length → calculate_session_count prompts.length = 4) ∧
    prompts.length ≤
      calculate_session_count prompts.length *
        default_songs_per_session prompts.length ∧
    calculate_session_count prompts.length *
        (default_songs_per_session prompts.length - 1) < prompts.length ∧
    (sessionSlices (default_songs_per_session prompts.length)
        ((prompts.length + default_songs_per_session prompts.length - 1) /
          default_songs_per_session prompts.length) prompts).flatten =
      prompts ∧
    (∀ sl ∈ sessionSlices (default_songs_per_session prompts.length)
        ((prompts.length + default_songs_per_session prompts.length - 1) /
          default_songs_per_session prompts.length) prompts,
      sl.length ≤ default_songs_per_session prompts.length) ∧
    (∀ (env : Nat → TabInteraction) (auto : Bool) (acct : String),
      ((create_songs_batch env prompts
          (default_songs_per_session prompts.length) auto acct).results).map
        SongResult.title = prompts.map SunoPrompt.title) := by
  have hN : 0 < prompts.length := List.length_pos.mpr hne
  have hc : 0 < calculate_session_count prompts.length := by
    unfold calculate_session_count
    split <;> try split <;> try split
    all_goals omega
  have hs1 : 0 < default_songs_per_session prompts.length := by
    unfold default_songs_per_session
    exact Nat.div_pos (by omega) hc
  refine ⟨?_, ?_, ?_, ?_, ?_, ?_, ?_, ?_, ?_⟩
  · intro h
    unfold calculate_session_count
    rw [if_neg (by omega), if_neg (by omega), if_neg (by omega)]
  · intro h1 h2
    unfold calculate_session_count
    rw [if_neg (by omega), if_neg (by omega), if_pos (by omega)]
  · intro h1 h2
    unfold calculate_session_count
    rw [if_neg (by omega), if_pos (by omega)]
  · intro h
    unfold calculate_session_count
    rw [if_pos (by omega)]
  · show prompts.length ≤ calculate_session_count prompts.length *
      ((prompts.length + calculate_session_count prompts.length - 1) /
        calculate_session_count prompts.length)
    rw [← Nat.ceilDiv_eq_add_pred_div]
    simpa using le_smul_ceilDiv hc
  · by_contra h
    push_neg at h
    have h2 : prompts.length ⌈/⌉ calculate_session_count prompts.length ≤
        default_songs_per_session prompts.length - 1 :=
      (ceilDiv_le_iff_le_mul hc).mpr h
    rw [Nat.ceilDiv_eq_add_pred_div] at h2
    unfold default_songs_per_session at h2 hs1
    omega
  · exact sessionSlices_flatten_all _ prompts hs1
  · exact sessionSlices_length_le _ _ prompts
  · intro env auto acct
    unfold create_songs_batch
    rw [if_neg hne]
    simp only
    rw [Nat.max_eq_right hs1, runSessions_titles, sessionSlices_flatten_all _ prompts hs1]

/-- Witness for `session_partitioning` at the concrete three-prompt batch:
the tier gives one session and the slices concatenate back to the batch. -/
theorem session_partitioning_witness :
    cexPrompts3 ≠ [] ∧
    (sessionSlices (default_songs_per_session cexPrompts3.length)
        ((cexPrompts3.length + default_songs_per_session cexPrompts3.length - 1) /
          default_songs_per_session cexPrompts3.length) cexPrompts3).flatten =
      cexPrompts3 :=
  ⟨by decide, (session_partitioning cexPrompts3 (by decide)).2.2.2.2.2.2.1⟩

/-- C8, counterexample: in a 3-prompt batch the progress callback for the
second song receives 66 — the truncation of the double product
`(2/3)*100 = 66.66…` — whereas the claimed `round(100·2/3)` is 67. -/
theorem progress_percent_counterexample :
    ((create_songs_batch cexEnvOk cexPrompts3 3 true "acct").progress).map
        ProgressEvent.percent = [33, 66, 100, 100] ∧
    roundNearest (100 * 2) 3 = 67 ∧
    (66 : Nat) ≠ 67 := by
  refine ⟨by decide, by decide, by decide⟩

/-- C8, amended: the progress callback for the `j`-th song of a non-empty
batch (counting from 0, across all sessions in order) receives
`percent = min(100, int(((j+1) / total) * 100))` evaluated in the program's
double-precision arithmetic — a truncation, not the claimed
`round(100·k/total)` — followed by a final completion event with percent 100.
The truncated double can even fall below the exact floor: at `k = 29` of
`total = 100` the program reports 28, not `⌊100·29/100⌋ = 29`. -/
theorem progress_percent_truncated (env : Nat → TabInteraction)
    (prompts : List SunoPrompt) (spb : Nat) (auto : Bool) (acct : String)
    (hne : prompts ≠ []) :
    ((create_songs_batch env prompts spb auto acct).progress).map
        ProgressEvent.percent =
      (List.range prompts.length).map
        (fun j => pyPercent (j + 1) prompts.length) ++ [100] ∧
    pyPercent 29 100 = 28 ∧
    pyPercent 29 100 ≠ min 100 ((100 * 29) / 100) := by
  refine ⟨?_, by decide, by decide⟩
  unfold create_songs_batch
  rw [if_neg hne]
  simp only [List.map_append]
  rw [runSessions_percents]
  rw [sessionSlices_flatten_all _ prompts (by omega)]
  congr 1
  rw [List.range'_eq_map_range, List.map_map]
  apply List.map_congr_left
  intro k _
  simp only [Function.comp_apply]
  have h : 0 + 1 + k = k + 1 := by omega
  rw [h]

/-- Witness for `progress_percent_truncated` at the concrete three-prompt
batch: percents 33, 66, 100 and the final 100. -/
theorem progress_percent_truncated_witness :
    cexPrompts3 ≠ [] ∧
    ((create_songs_batch cexEnvOk cexPrompts3 3 true "acct").progress).map
        ProgressEvent.percent =
      (List.range cexPrompts3.length).map
        (fun j => pyPercent (j + 1) cexPrompts3.length) ++ [100] :=
  ⟨by decide,
    (progress_percent_truncated cexEnvOk cexPrompts3 3 true "acct"
      (by decide)).1⟩

/-- Helper: `is_downloaded` is membership in the dedup set. -/
theorem is_downloaded_iff (h : DownloadHistory) (c : String) :
    h.is_downloaded c = true ↔ c ∈ h.downloaded_ids := by
  simp [DownloadHistory.is_downloaded]

/-- Helper: an already-recorded clip is only counted as skipped —
history, stats (but the skip counter) and the download log are untouched. -/
theorem processClip_skip (env : DlEnv) (st : DlRun) (c : String)
    (h : st.history.is_downloaded c = true) :
    processClip env st c =
      { st with stats := { st.stats with skipped := st.stats.skipped + 1 } } := by
  unfold processClip
  rw [if_pos h]

/-- Helper: `processClip` never removes ids from the dedup set. -/
theorem processClip_history_mono (env : DlEnv) (st : DlRun) (c x : String)
    (hx : x ∈ st.history.downloaded_ids) :
    x ∈ (processClip env st c).history.downloaded_ids := by
  unfold processClip DownloadHistory.add_download
  split
  · exact hx
  · split
    · split
      · exact hx
      · simp only []
        exact List.mem_append_left _ hx
    · exact hx

/-- Helper: after processing a clip whose download succeeds (or that was
already recorded), its id is in the dedup set. -/
theorem processClip_mem (env : DlEnv) (st : DlRun) (c : String)
    (h : env.downloadOk c = true) :
    c ∈ (processClip env st c).history.downloaded_ids := by
  unfold processClip
  by_cases hd : st.history.is_downloaded c = true
  · rw [if_pos hd]
    exact (is_downloaded_iff _ _).mp hd
  · rw [if_neg hd, if_pos h]
    unfold DownloadHistory.add_download
    split
    · assumption
    · simp

/-- Helper: `processPage` never removes ids from the dedup set. -/
theorem processPage_history_mono (env : DlEnv) (mc : Option Nat) :
    ∀ (page : List String) (st : DlRun) (x : String),
      x ∈ st.history.downloaded_ids →
      x ∈ (processPage env mc st page).history.downloaded_ids := by
  intro page
  induction page with
  | nil => intro st x hx; exact hx
  | cons c cs ih =>
    intro st x hx
    unfold processPage
    split
    · exact hx
    · exact ih _ _ (processClip_history_mono env st c x hx)

/-- Helper: with no clip cap, every successfully downloadable id of a page is
in the dedup set after the page is processed. -/
theorem processPage_covers (env : DlEnv) :
    ∀ (page : List String) (st : DlRun),
      (∀ id ∈ page, env.downloadOk id = true) →
      ∀ id ∈ page, id ∈ (processPage env none st page).history.downloaded_ids := by
  intro page
  induction page with
  | nil => intro st hok id hid; simp at hid
  | cons c cs ih =>
    intro st hok id hid
    unfold processPage
    simp only [reachedMaxClips, if_false]
    rcases List.mem_cons.mp hid with h | h
    · subst h
      exact processPage_history_mono env none cs _ id
        (processClip_mem env st id (hok id (List.mem_cons_self _ _)))
    · exact ih (processClip env st c) (fun i hi => hok i (List.mem_cons_of_mem _ hi)) id h

/-- Helper: `runPages` never removes ids from the dedup set. -/
theorem runPages_history_mono (env : DlEnv) (mp mc : Option Nat) :
    ∀ (pages : List (List String)) (n : Nat) (st : DlRun) (x : String),
      x ∈ st.history.downloaded_ids →
      x ∈ (runPages env mp mc pages n st).history.downloaded_ids := by
  intro pages
  induction pages with
  | nil => intro n st x hx; exact hx
  | cons p rest ih =>
    intro n st x hx
    unfold runPages
    split
    · exact hx
    · split
      · exact hx
      · split
        · exact hx
        · split
          · exact processPage_history_mono env mc p _ x hx
          · exact ih _ _ x (processPage_history_mono env mc p _ x hx)

/-- Helper: one step of the page loop without page/clip caps. -/
theorem runPages_cons_none (env : DlEnv) (p : List String)
    (rest : List (List String)) (n : Nat) (st : DlRun) (hp : p ≠ []) :
    runPages env none none (p :: rest) n st =
      (if rest = [] then
        processPage env none
          { st with stats :=
              { st.stats with total_pages := st.stats.total_pages + 1 } } p
      else
        runPages env none none rest (n + 1)
          (processPage env none
            { st with stats :=
                { st.stats with total_pages := st.stats.total_pages + 1 } } p)) := by
  conv_lhs => unfold runPages
  simp [reachedMaxClips, hp]

/-- Helper: one step of the in-page clip loop without a clip cap. -/
theorem processPage_cons_none (env : DlEnv) (c : String) (cs : List String)
    (st : DlRun) :
    processPage env none st (c :: cs) =
      processPage env none (processClip env st c) cs := by
  rfl

/-- Helper: with no caps and no empty page, every successfully downloadable
id of the source is in the dedup set after the run. -/
theorem runPages_covers (env : DlEnv) :
    ∀ (pages : List (List String)) (n : Nat) (st : DlRun),
      (∀ p ∈ pages, p ≠ []) →
      (∀ id ∈ pages.flatten, env.downloadOk id = true) →
      ∀ id ∈ pages.flatten,
        id ∈ (runPages env none none pages n st).history.downloaded_ids := by
  intro pages
  induction pages with
  | nil => intro n st hne hok id hid; simp at hid
  | cons p rest ih =>
    intro n st hne hok id hid
    rw [runPages_cons_none env p rest n st (hne p (List.mem_cons_self _ _))]
    have hokp : ∀ i ∈ p, env.downloadOk i = true := fun i hi =>
      hok i (by rw [List.flatten_cons]; exact List.mem_append_left _ hi)
    have hcases : id ∈ p ∨ id ∈ rest.flatten := by
      rw [List.flatten_cons] at hid
      exact List.mem_append.mp hid
    rcases hcases with hidp | hrest
    · split
      · exact processPage_covers env p _ hokp id hidp
      · exact runPages_history_mono env none none rest _ _ id
          (processPage_covers env p _ hokp id hidp)
    · have hrestne : rest ≠ [] := by
        intro hc
        rw [hc] at hrest
        simp at hrest
      rw [if_neg hrestne]
      exact ih _ _ (fun q hq => hne q (List.mem_cons_of_mem _ hq))
        (fun i hi => hok i
          (by rw [List.flatten_cons]; exact List.mem_append_right _ hi))
        id hrest

/-- Helper: a page whose every id is already in the dedup set only bumps the
skip counter by the page length. -/
theorem processPage_all_skipped (env : DlEnv) :
    ∀ (page : List String) (st : DlRun),
      (∀ id ∈ page, st.history.is_downloaded id = true) →
      processPage env none st page =
        { st with stats :=
            { st.stats with skipped := st.stats.skipped + page.length } } := by
  intro page
  induction page with
  | nil => intro st h; rfl
  | cons c cs ih =>
    intro st h
    rw [processPage_cons_none,
      processClip_skip env st c (h c (List.mem_cons_self _ _))]
    refine (ih _ ?_).trans ?_
    · intro i hi
      exact h i (List.mem_cons_of_mem _ hi)
    · simp only [List.length_cons]
      congr 1
      congr 1
      omega

/-- Helper: a source whose every id is already in the dedup set only counts
skips — one per item — and pages; history, success/failed counts and the
download log are untouched. -/
theorem runPages_all_skipped (env : DlEnv) :
    ∀ (pages : List (List String)) (n : Nat) (st : DlRun),
      (∀ p ∈ pages, p ≠ []) →
      (∀ id ∈ pages.flatten, st.history.is_downloaded id = true) →
      runPages env none none pages n st =
        { st with stats :=
            { st.stats with
                skipped := st.stats.skipped + pages.flatten.length
                total_pages := st.stats.total_pages + pages.length } } := by
  intro pages
  induction pages with
  | nil => intro n st hne hin; rfl
  | cons p rest ih =>
    intro n st hne hin
    rw [runPages_cons_none env p rest n st (hne p (List.mem_cons_self _ _))]
    have hinp : ∀ id ∈ p, st.history.is_downloaded id = true := fun i hi =>
      hin i (by rw [List.flatten_cons]; exact List.mem_append_left _ hi)
    by_cases hrest : rest = []
    · rw [if_pos hrest]
      subst hrest
      refine (processPage_all_skipped env p _ ?_).trans ?_
      · exact hinp
      · simp only [List.flatten_cons, List.flatten_nil, List.append_nil,
          List.length_cons, List.length_nil]
    · rw [if_neg hrest]
      refine ((congrArg (runPages env none none rest (n + 1))
          (processPage_all_skipped env p _ ?_)).trans
        (ih (n + 1) _ ?_ ?_)).trans ?_
      · exact hinp
      · exact fun q hq => hne q (List.mem_cons_of_mem _ hq)
      · intro i hi
        exact hin i
          (by rw [List.flatten_cons]; exact List.mem_append_right _ hi)
      · simp only [List.flatten_cons, List.length_append, List.length_cons]
        congr 1
        congr 1
        · omega
        · omega

/-- C1: each item already in the dedup set is counted as skipped with no
download attempted; a successful download appends the id to the set (and
counts a success); a failed download leaves the set unchanged (and counts a
failure); and re-running `batch_download_paginated` over a source whose first
run (over non-empty pages, all downloads succeeding) downloaded everything
yields `success = 0`, `skipped` equal to the source size, and no download
attempts at all — the run downloads strictly the complement of the dedup
set. -/
theorem batch_download_idempotent (env : DlEnv) (pages : List (List String))
    (h_ok : ∀ id ∈ pages.flatten, env.downloadOk id = true)
    (h_ne : ∀ p ∈ pages, p ≠ []) :
    (∀ (st : DlRun) (c : String),
      (st.history.is_downloaded c = true →
        processClip env st c =
          { st with stats :=
              { st.stats with skipped := st.stats.skipped + 1 } }) ∧
      (st.history.is_downloaded c = false → env.downloadOk c = true →
        processClip env st c =
          { history :=
              { downloaded_ids := st.history.downloaded_ids ++ [c]
                total_downloaded := (st.history.downloaded_ids ++ [c]).length }
            stats := { st.stats with success := st.stats.success + 1 }
            attempted := st.attempted ++ [c] }) ∧
      (st.history.is_downloaded c = false → env.downloadOk c = false →
        processClip env st c =
          { st with
              stats := { st.stats with failed := st.stats.failed + 1 }
              attempted := st.attempted ++ [c] })) ∧
    batch_download_paginated env pages
        (batch_download_paginated env pages ⟨[], 0⟩ none none).history
        none none =
      { history := (batch_download_paginated env pages ⟨[], 0⟩ none none).history
        stats := { success := 0, failed := 0
                   skipped := pages.flatten.length
                   total_pages := pages.length }
        attempted := [] } := by
  constructor
  · intro st c
    refine ⟨fun h => processClip_skip env st c h, fun h hok => ?_,
      fun h hnotok => ?_⟩
    · have hc : c ∉ st.history.downloaded_ids := by
        simpa [DownloadHistory.is_downloaded] using h
      unfold processClip
      rw [if_neg (by simp [h]), if_pos hok]
      unfold DownloadHistory.add_download
      rw [if_neg hc]
    · unfold processClip
      rw [if_neg (by simp [h]), if_neg (by simp [hnotok])]
  · have hcov := runPages_covers env pages 0
      ⟨⟨[], 0⟩, ⟨0, 0, 0, 0⟩, []⟩ h_ne h_ok
    unfold batch_download_paginated
    refine (runPages_all_skipped env pages 0 _ h_ne ?_).trans ?_
    · intro id hid
      exact (is_downloaded_iff _ _).mpr (hcov id hid)
    · simp

/-- Witness for `batch_download_idempotent` on a concrete 2-page source with
3 items, every download succeeding: the second run succeeds 0 times, skips 3
items over 2 pages, and attempts nothing. -/
theorem batch_download_idempotent_witness :
    batch_download_paginated ⟨fun _ => true⟩ [["a", "b"], ["c"]]
        (batch_download_paginated ⟨fun _ => true⟩ [["a", "b"], ["c"]]
          ⟨[], 0⟩ none none).history
        none none =
      { history := (batch_download_paginated ⟨fun _ => true⟩ [["a", "b"], ["c"]]
          ⟨[], 0⟩ none none).history
        stats := { success := 0, failed := 0, skipped := 3, total_pages := 2 }
        attempted := [] } :=
  (batch_download_idempotent ⟨fun _ => true⟩ [["a", "b"], ["c"]]
    (by decide) (by decide)).2

/-- Helper: a fresh manager satisfies the queue invariant for any pool. -/
theorem QMInv_initial (P : List SunoPrompt) : QMInv P QMState.initial := by
  refine ⟨Or.inr rfl, fun _ => ⟨rfl, rfl⟩, le_refl _, by simp [QMState.initial],
    ?_, ?_⟩
  · intro e he
    simp [QMState.initial] at he
  · simp [QMState.initial]

/-- Helper: `_ensure_prompts` with the stored pool (non-empty) is a no-op. -/
theorem ensure_prompts_of_eq (s : QMState) (P : List SunoPrompt)
    (hsP : s.prompts = P) (hne : P ≠ []) :
    ensure_prompts s P = (s, true) := by
  unfold ensure_prompts
  rw [if_neg hne, if_neg (by simp [hsP]), if_neg (by simp [hsP, hne])]

/-- Helper: `_ensure_prompts` on a manager with no pool yet installs the given
pool and resets the cursor. -/
theorem ensure_prompts_replace (s : QMState) (P : List SunoPrompt)
    (hsnil : s.prompts = []) (hne : P ≠ []) :
    ensure_prompts s P =
      ({ s with prompts := P, prompt_cursor := 0 }, true) := by
  unfold ensure_prompts
  rw [if_neg hne, if_neg (by simp [hsnil]), if_pos (Or.inl hsnil)]

/-- Helper: when `_ensure_prompts` raises, `add_queue_entry` stops with the
state `_ensure_prompts` left behind. -/
theorem add_queue_entry_of_ensure_fail (s : QMState) (acct : String)
    (t b : Int) (P : List SunoPrompt) (s1 : QMState)
    (hE : ensure_prompts s P = (s1, false)) :
    (add_queue_entry s acct t b P).1 = s1 := by
  unfold add_queue_entry
  rw [hE]
  rfl

/-- Helper: when `_ensure_prompts` succeeds, `add_queue_entry` either raises
on one of the count validations (leaving `_ensure_prompts`'s state) or
allocates `[cursor, cursor + total_songs)` with positive `total_songs` within
the pool. -/
theorem add_queue_entry_of_ensure_ok (s : QMState) (acct : String)
    (t b : Int) (P : List SunoPrompt) (s1 : QMState)
    (hE : ensure_prompts s P = (s1, true)) :
    (add_queue_entry s acct t b P).1 = s1 ∨
    ((add_queue_entry s acct t b P).1 =
      { s1 with
          prompt_cursor := s1.prompt_cursor + t
          queues := s1.queues ++
            [⟨s1.next_id, acct, t, b, (s1.prompt_cursor, s1.prompt_cursor + t),
              "pending", 0⟩]
          next_id := s1.next_id + 1 } ∧
      0 < t ∧ s1.prompt_cursor + t ≤ (s1.prompts.length : Int)) := by
  unfold add_queue_entry
  rw [hE]
  by_cases h1 : t ≤ 0 ∨ b ≤ 0
  · left
    simp [h1]
  · by_cases h2 : b > t
    · left
      simp [h1, h2]
    · by_cases h3 : s1.prompt_cursor + t > (s1.prompts.length : Int)
      · left
        simp [h1, h2, h3]
      · right
        refine ⟨?_, by omega, by omega⟩
        simp [h1, h2, h3]

/-- Helper: `add_queue_entry` against the pool `P` preserves the queue
invariant. -/
theorem QMInv_add (P : List SunoPrompt) (s : QMState) (hinv : QMInv P s)
    (acct : String) (t b : Int) :
    QMInv P (add_queue_entry s acct t b P).1 := by
  by_cases hP : P = []
  · have hE : ensure_prompts s P = (s, false) := by
      unfold ensure_prompts
      rw [if_pos hP]
    rw [add_queue_entry_of_ensure_fail s acct t b P s hE]
    exact hinv
  · have hs1 : ∃ s1, ensure_prompts s P = (s1, true) ∧ QMInv P s1 ∧
        s1.prompts = P := by
      by_cases hsP : s.prompts = P
      · exact ⟨s, ensure_prompts_of_eq s P hsP hP, hinv, hsP⟩
      · have hsnil : s.prompts = [] := hinv.1.resolve_left hsP
        have hq : s.queues = [] ∧ s.prompt_cursor = 0 := hinv.2.1 hsnil
        refine ⟨_, ensure_prompts_replace s P hsnil hP, ?_, rfl⟩
        refine ⟨Or.inl rfl, fun h => absurd h hP, le_refl 0,
          Int.natCast_nonneg _, ?_, ?_⟩
        · intro e he
          rw [hq.1] at he
          simp at he
        · show s.queues.Pairwise _
          rw [hq.1]
          exact List.Pairwise.nil
    obtain ⟨s1, hE, hinv1, hs1P⟩ := hs1
    rcases add_queue_entry_of_ensure_ok s acct t b P s1 hE with h | ⟨h, ht, hcap⟩
    · rw [h]
      exact hinv1
    · rw [h]
      obtain ⟨hp1, hp2, hp3, hp4, hp5, hp6⟩ := hinv1
      unfold QMInv
      dsimp only
      refine ⟨Or.inl hs1P, ?_, by omega, ?_, ?_, ?_⟩
      · intro hnil
        rw [hs1P] at hnil
        exact absurd hnil hP
      · exact hcap
      · intro e he
        rcases List.mem_append.mp he with he | he
        · obtain ⟨h1', h2', h3'⟩ := hp5 e he
          exact ⟨h1', h2', by omega⟩
        · simp only [List.mem_singleton] at he
          subst he
          refine ⟨?_, ?_, ?_⟩ <;> dsimp only <;> omega
      · rw [List.pairwise_append]
        refine ⟨hp6, by simp, ?_⟩
        intro a ha b' hb'
        simp only [List.mem_singleton] at hb'
        subst hb'
        exact (hp5 a ha).2.2

/-- C4: any sequence of `add_queue_entry` calls against one prompt pool
leaves the live entries with pairwise-disjoint `prompts_range` intervals,
each lying within `[0, len(pool))` (as a half-open interval:
`0 ≤ start ≤ end ≤ len(pool)`). -/
theorem queue_ranges_disjoint_in_bounds (P : List SunoPrompt)
    (calls : List (String × Int × Int)) :
    ((runAdds P calls).queues.Pairwise
      (fun a b => RangesDisjoint a.prompts_range b.prompts_range)) ∧
    (∀ e ∈ (runAdds P calls).queues,
      0 ≤ e.prompts_range.1 ∧ e.prompts_range.1 ≤ e.prompts_range.2 ∧
      e.prompts_range.2 ≤ (P.length : Int)) := by
  have key : ∀ (cs : List (String × Int × Int)) (s : QMState), QMInv P s →
      QMInv P (cs.foldl (fun s c => (add_queue_entry s c.1 c.2.1 c.2.2 P).1) s) := by
    intro cs
    induction cs with
    | nil => intro s h; exact h
    | cons c rest ih =>
      intro s h
      exact ih _ (QMInv_add P s h c.1 c.2.1 c.2.2)
  have hinv : QMInv P (runAdds P calls) :=
    key calls QMState.initial (QMInv_initial P)
  obtain ⟨hp1, hp2, hp3, hp4, hp5, hp6⟩ := hinv
  constructor
  · exact hp6.imp (fun h => Or.inl h)
  · intro e he
    obtain ⟨h1', h2', h3'⟩ := hp5 e he
    refine ⟨h1', h2', ?_⟩
    rcases hp1 with hPP | hnil
    · rw [hPP] at hp4
      omega
    · have hq := (hp2 hnil).1
      rw [hq] at he
      simp at he
